/-
Verification of scripts/process_safety_data.py (ImOnBus repository).

Modelling conventions:
* Python floats are modelled as exact rationals (ℚ).  All arithmetic in the
  script (means, weighted sums, grid quantisation) is modelled exactly.
* Python `round(x, d)` is modelled by `pyRound d : ℚ → ℚ`, round-half-to-even
  at `d` decimal places, matching Python's rounding mode.
* A pandas cell that may be NaN is modelled as `Option String` (`none` = NaN);
  `Series.map(dict)` followed by `.mean()` (which skips NaN) is modelled by
  `List.filterMap` followed by an exact mean.
* A data frame is a list of rows; a row is a total function from column name
  to cell value.  `df.columns` is carried separately as a list of strings.
* The script's single output write is modelled by `runPipeline` returning
  `Option Output`: `none` models an abort (uncaught exception) before the
  output file is written, `some o` models a completed run writing exactly `o`.
* Python `str.lower` is modelled by `String.toLower`; the substring test
  `tok in s` is modelled by `strContains s tok`.
-/
import Mathlib

namespace SafetyData

/-! ### Substring matching (Column Resolver, `'tok' in c.lower()`) -/

/-- Test `hasSubstr needle hay`: `needle` occurs as a contiguous substring of `hay`. -/
def hasSubstr (needle : List Char) : List Char → Bool
  | [] => needle.isPrefixOf ([] : List Char)
  | c :: t => needle.isPrefixOf (c :: t) || hasSubstr needle t

/-- Python `needle in hay` on strings. -/
def strContains (hay needle : String) : Bool :=
  hasSubstr needle.toList hay.toList

/-- Model of the Python test `tok in c.lower()` — the fuzzy column match used throughout the script. -/
def matchTok (tok : String) (c : String) : Bool :=
  strContains c.toLower tok

/-! ### Python rounding, modelled exactly on ℚ -/

/-- Round-half-to-even of a rational to an integer (Python `round(x)` mode). -/
def rhe (q : ℚ) : ℤ :=
  if q - ⌊q⌋ < 1/2 then ⌊q⌋
  else if 1/2 < q - ⌊q⌋ then ⌊q⌋ + 1
  else if ⌊q⌋ % 2 = 0 then ⌊q⌋ else ⌊q⌋ + 1

/-- Python `round(x, d)` on exact rationals. -/
def pyRound (d : ℕ) (q : ℚ) : ℚ :=
  (rhe (q * 10 ^ d) : ℚ) / 10 ^ d

theorem rhe_intCast (n : ℤ) : rhe (n : ℚ) = n := by
  simp [rhe]

theorem rhe_nonneg {q : ℚ} (h : 0 ≤ q) : 0 ≤ rhe q := by
  have hf : (0:ℤ) ≤ ⌊q⌋ := Int.le_floor.2 (by exact_mod_cast h)
  unfold rhe
  split
  · exact hf
  · split
    · omega
    · split
      · exact hf
      · omega

theorem rhe_le_of_le {q : ℚ} {m : ℤ} (h : q ≤ m) : rhe q ≤ m := by
  have hf : ⌊q⌋ ≤ m := by
    have := Int.floor_le_floor (α := ℚ) h
    simpa using this
  unfold rhe
  split
  · exact hf
  · rename_i h1
    push_neg at h1
    have hne : q ≠ ⌊q⌋ := by
      intro he
      rw [he] at h1
      simp at h1
      norm_num at h1
    have hlt : ⌊q⌋ < m := by
      rcases lt_or_eq_of_le hf with h2 | h2
      · exact h2
      · exfalso
        apply hne
        have : (m:ℚ) ≤ q := by
          rw [← h2]
          exact Int.floor_le q
        have hq : q = (m : ℚ) := le_antisymm h this
        rw [hq]
        simp
    split
    · omega
    · split <;> omega

theorem pyRound_nonneg {d : ℕ} {q : ℚ} (h : 0 ≤ q) : 0 ≤ pyRound d q := by
  unfold pyRound
  apply div_nonneg
  · exact_mod_cast rhe_nonneg (by positivity)
  · positivity

theorem pyRound_le_one {d : ℕ} {q : ℚ} (h : q ≤ 1) : pyRound d q ≤ 1 := by
  unfold pyRound
  rw [div_le_one (by positivity)]
  have : q * 10 ^ d ≤ ((10 ^ d : ℤ) : ℚ) := by
    push_cast
    calc q * 10 ^ d ≤ 1 * 10 ^ d := by
          apply mul_le_mul_of_nonneg_right h (by positivity)
      _ = 10 ^ d := one_mul _
  have := rhe_le_of_le this
  exact_mod_cast this

/-- Lemma: `rhe` is the identity on integers embedded in ℚ, so `pyRound d` fixes any
rational whose denominator divides `10^d`. -/
theorem pyRound_eq_self {d : ℕ} {q : ℚ} {n : ℤ} (h : q * 10 ^ d = n) :
    pyRound d q = q := by
  unfold pyRound
  rw [h, rhe_intCast, ← h]
  field_simp

/-! ### Response Normalizer (`yes_map`, `intensity_map`, per-column mean) -/

/-- Model of `yes_map` (Sì↦1.0, No↦0.0, Si↦1.0) as a partial lookup;
`none` models "not in the dict" (pandas maps it to NaN). -/
def yesMap (s : String) : Option ℚ :=
  if s = "Sì" then some 1
  else if s = "No" then some 0
  else if s = "Si" then some 1
  else none

/-- Model of `intensity_map` from the script. -/
def intensityMap (s : String) : Option ℚ :=
  if s = "Molto" then some 1
  else if s = "Moltissimo" then some 1
  else if s = "Abbastanza" then some (7/10)
  else if s = "Poco" then some (3/10)
  else if s = "Per nulla" then some 0
  else none

/-- Values of a column restricted to a group, each cell possibly NaN,
mapped through a lookup table; NaN and unmapped values drop out
(pandas `Series.map(dict)` then `mean()` skipping NaN). -/
def mappedVals (m : String → Option ℚ) (vs : List (Option String)) : List ℚ :=
  vs.filterMap (fun v => v.bind m)

/-- Exact arithmetic mean of a list of rationals. -/
def meanQ (l : List ℚ) : ℚ := l.sum / (l.length : ℚ)

/-- Model of `round(group[col].map(m).mean(), 3) if not pd.isna(...) else 0.0`:
the mean is NaN exactly when no value was mappable, and then the script
emits `0.0`. -/
def rateVal (m : String → Option ℚ) (vs : List (Option String)) : ℚ :=
  let mv := mappedVals m vs
  if mv = [] then 0 else pyRound 3 (meanQ mv)

/-! ### Survey tables and column resolution -/

/-- A loaded CSV with string cells; a row maps a column name to its cell
(`none` = NaN / missing). -/
structure Table where
  cols : List String
  rows : List (String → Option String)

/-- The 2023 incident CSV, whose used cells are numeric. -/
structure NumTable where
  cols : List String
  rows : List (String → ℚ)

/-- Columns `quartiere_col`: columns matching the primary neighborhood vocabulary. -/
def quartiere_col (cols : List String) : List String :=
  cols.filter (fun c => matchTok "quartiere_abita" c || matchTok "quale_quartiere" c)

/-- Columns `problem_cols_yes`: the yes/no problem columns. -/
def problem_cols_yes (cols : List String) : List String :=
  cols.filter (fun c => matchTok "problemiquartiere" c && matchTok "scala_1" c)

/-- Columns `problem_cols_intensity`: the intensity problem columns. -/
def problem_cols_intensity (cols : List String) : List String :=
  cols.filter (fun c => matchTok "problemiquartiere" c && matchTok "scala_2" c)

/-- Model of `key_problems[tok]`: the yes/no columns for one problem keyword. -/
def keyCols (cols : List String) (tok : String) : List String :=
  (problem_cols_yes cols).filter (matchTok tok)

/-- Model of `key_intensity[tok]`: the intensity columns for one problem keyword. -/
def keyIntCols (cols : List String) (tok : String) : List String :=
  (problem_cols_intensity cols).filter (matchTok tok)

/-- Resolution of `q_col`: first primary match, else the first column containing the bare
token `quartiere` (the script's fallback loop); `none` models the Python
`None` that makes `df[q_col]` raise before anything is written. -/
def qColOf (cols : List String) : Option String :=
  match (quartiere_col cols).head? with
  | some c => some c
  | none => cols.find? (matchTok "quartiere")

/-- One `scores` entry: present iff the problem has at least one matched
column (`if cols:` in the script), in which case the first match is used. -/
def rateField (m : String → Option ℚ) (colsFor : List String)
    (g : List (String → Option String)) : Option ℚ :=
  colsFor.head?.map (fun col => rateVal m (g.map (fun r => r col)))

/-- The per-neighborhood `scores` dict of the script, with `none` modelling
an absent key. -/
structure NScore where
  spaccio_rate : Option ℚ
  criminali_rate : Option ℚ
  ragazzini_rate : Option ℚ
  illuminazione_rate : Option ℚ
  degrado_marciapiedi_rate : Option ℚ
  barboni_rate : Option ℚ
  spaccio_intensity : Option ℚ
  criminali_intensity : Option ℚ
  ragazzini_intensity : Option ℚ
  illuminazione_intensity : Option ℚ
  degrado_marciapiedi_intensity : Option ℚ
  barboni_intensity : Option ℚ
  risk_score : ℚ
  count : ℕ
deriving DecidableEq, Repr

/-- Model of `risk = sum(scores.get(k, 0) * w for k, w in weights.items())`, rounded
to 3 decimals; an absent rate key contributes 0 via `.get(k, 0)`. -/
def riskFromRates (sr cr rr ir dr br : Option ℚ) : ℚ :=
  pyRound 3 (sr.getD 0 * (25/100) + cr.getD 0 * (25/100) + rr.getD 0 * (15/100) +
             ir.getD 0 * (15/100) + dr.getD 0 * (10/100) + br.getD 0 * (10/100))

/-- The `scores` record built for one groupby group `g`. -/
def mkNScore (cols : List String) (g : List (String → Option String)) : NScore :=
  let sr := rateField yesMap (keyCols cols "spaccio") g
  let cr := rateField yesMap (keyCols cols "criminal") g
  let rr := rateField yesMap (keyCols cols "ragazzini") g
  let ir := rateField yesMap (keyCols cols "illuminaz") g
  let dr := rateField yesMap (keyCols cols "marciapiedi") g
  let br := rateField yesMap (keyCols cols "barboni") g
  { spaccio_rate := sr
    criminali_rate := cr
    ragazzini_rate := rr
    illuminazione_rate := ir
    degrado_marciapiedi_rate := dr
    barboni_rate := br
    spaccio_intensity := rateField intensityMap (keyIntCols cols "spaccio") g
    criminali_intensity := rateField intensityMap (keyIntCols cols "criminal") g
    ragazzini_intensity := rateField intensityMap (keyIntCols cols "ragazzini") g
    illuminazione_intensity := rateField intensityMap (keyIntCols cols "illuminaz") g
    degrado_marciapiedi_intensity := rateField intensityMap (keyIntCols cols "marciapiedi") g
    barboni_intensity := rateField intensityMap (keyIntCols cols "barboni") g
    risk_score := riskFromRates sr cr rr ir dr br
    count := g.length }

/-- The rows of one groupby group: those whose neighborhood cell equals `k`.
A row with a NaN neighborhood cell matches no `k` (pandas groupby drops NaN
keys). -/
def groupRows (qcol : String) (rows : List (String → Option String))
    (k : String) : List (String → Option String) :=
  rows.filter (fun r => decide (r qcol = some k))

/-- Model of `neighborhood_scores`: one entry per distinct non-NaN neighborhood label.
pandas iterates groups in sorted key order; we keep first-occurrence order,
which no claim depends on. -/
def neighborhood_scores (cols : List String) (qcol : String)
    (rows : List (String → Option String)) : List (String × NScore) :=
  ((rows.filterMap (fun r => r qcol)).dedup).map
    (fun k => (k, mkNScore cols (groupRows qcol rows k)))

/-! ### Spatial Binner -/

def GRID_LAT : ℚ := 3/1000
def GRID_LON : ℚ := 4/1000

/-- Model of `glat = round(math.floor(lat / GRID_LAT) * GRID_LAT, 4)`. -/
def glatOf (lat : ℚ) : ℚ := pyRound 4 ((⌊lat / GRID_LAT⌋ : ℚ) * GRID_LAT)

/-- Model of `glon = round(math.floor(lon / GRID_LON) * GRID_LON, 4)`. -/
def glonOf (lon : ℚ) : ℚ := pyRound 4 ((⌊lon / GRID_LON⌋ : ℚ) * GRID_LON)

/-- Drop trailing zero digits. -/
def stripZeros (l : List Char) : List Char :=
  (l.reverse.dropWhile (fun c => c = '0')).reverse

/-- Zero-pad a numeral string on the left to width `w`. -/
def padLeft (s : String) (w : ℕ) : String :=
  String.mk (List.replicate (w - s.length) '0') ++ s

/-- Fractional part, 4 decimal digits with trailing zeros stripped, at least
one digit kept (Python float repr prints `41.0`, `41.097`, `41.1`). -/
def renderFrac (n : ℕ) : String :=
  let stripped := stripZeros (padLeft (toString n) 4).toList
  if stripped.isEmpty then "0" else String.mk stripped

/-- Decimal rendering of a rational with denominator dividing `10^4`,
modelling Python's shortest float repr inside the f-string. -/
def renderDec4 (q : ℚ) : String :=
  (if ⌊q * 10000⌋ < 0 then "-" else "") ++
    toString ((⌊q * 10000⌋).natAbs / 10000) ++ "." ++
    renderFrac ((⌊q * 10000⌋).natAbs % 10000)

/-- Model of `grid_key(lat, lon)` from the script (the f-string). -/
def grid_key (lat lon : ℚ) : String :=
  renderDec4 (glatOf lat) ++ "," ++ renderDec4 (glonOf lon)

/-- The bounding-box mask (all four comparisons inclusive). -/
def maskOK (lat lon : ℚ) : Bool :=
  decide ((41.02 : ℚ) ≤ lat) && decide (lat ≤ (41.17 : ℚ)) &&
  decide ((16.72 : ℚ) ≤ lon) && decide (lon ≤ (17.08 : ℚ))

/-- Model of `df_bari = df_2023[mask]` — filter keeps original order. -/
def df_bari (latc lonc : String) (rows : List (String → ℚ)) :
    List (String → ℚ) :=
  rows.filter (fun r => maskOK (r latc) (r lonc))

/-- Increment a key of an insertion-ordered counter dict. -/
def bump : List (String × ℕ) → String → List (String × ℕ)
  | [], k => [(k, 1)]
  | (k', n) :: t, k =>
      if k' = k then (k', n + 1) :: t else (k', n) :: bump t k

/-- Model of `grid_counts` accumulated over the retained incidents. -/
def grid_counts (latc lonc : String) (rows : List (String → ℚ)) :
    List (String × ℕ) :=
  ((df_bari latc lonc rows).map (fun r => grid_key (r latc) (r lonc))).foldl bump []

/-- Model of `incident_points`: retained points with both coordinates rounded to 5
decimals, in original order. -/
def incident_points (latc lonc : String) (rows : List (String → ℚ)) :
    List (ℚ × ℚ) :=
  (df_bari latc lonc rows).map (fun r => (pyRound 5 (r latc), pyRound 5 (r lonc)))

/-! ### Street Ranker -/

/-- The street-name column values with NaN dropped (pandas `value_counts`
uses `dropna=True`). -/
def street_names (scol : String) (rows : List (String → Option String)) :
    List String :=
  rows.filterMap (fun r => r scol)

/-- Model of `value_counts().to_dict()`: each distinct name with its multiplicity.
pandas sorts by descending count; we keep first-occurrence order, which no
claim depends on. -/
def street_counts (scol : String) (rows : List (String → Option String)) :
    List (String × ℕ) :=
  (street_names scol rows).dedup.map
    (fun n => (n, (street_names scol rows).count n))

/-- Model of the `street_danger` dict comprehension (keep v >= 2, notna keys); the
`pd.notna(k)` test is vacuous here since `value_counts` already dropped NaN
keys. -/
def street_danger (scol : String) (rows : List (String → Option String)) :
    List (String × ℕ) :=
  (street_counts scol rows).filter (fun kv => decide (2 ≤ kv.2))

/-! ### Unsafe places (computed and printed, never serialized) -/

/-- Model of `unsafe_places`: per matching column, the count of cells equal to the
literal `Selezionato`.  The script prints this dict and never puts it in
`output`. -/
def unsafe_places (cols : List String) (rows : List (String → Option String)) :
    List (String × ℕ) :=
  (cols.filter (matchTok "luoghiinsicurezza")).map
    (fun c => (c, rows.countP (fun r => decide (r c = some "Selezionato"))))

/-! ### Output assembly and the whole run -/

/-- The JSON document written by the script. -/
structure Output where
  neighborhoodScores : List (String × NScore)
  incidentGrid : List (String × ℕ)
  gridConfig : ℚ × ℚ
  dangerousStreets : List (String × ℕ)
  incidentPoints2023 : List (ℚ × ℚ)
deriving DecidableEq, Repr, Inhabited

/-- The whole run.  `none` models any uncaught exception before the single
`json.dump` at the end: `df[None]` when no quartiere column resolves,
`[...][0]` on an empty match list for the latitude / longitude /
street-name columns, and `max(grid_counts.values())` on an empty dict
(the diagnostic print at line 143 raises `ValueError` when no incident
falls inside the bounding box). -/
def assembleOutput (ns : List (String × NScore)) (inc : NumTable)
    (str17 : Table) : Option Output :=
  match (inc.cols.filter (matchTok "latit")).head? with
  | none => none
  | some latc =>
    match (inc.cols.filter (matchTok "longit")).head? with
    | none => none
    | some lonc =>
      match grid_counts latc lonc inc.rows with
      | [] => none
      | g0 :: gs =>
        match (str17.cols.filter (matchTok "denominaz")).head? with
        | none => none
        | some scol =>
          some {
            neighborhoodScores := ns
            incidentGrid := g0 :: gs
            gridConfig := (GRID_LAT, GRID_LON)
            dangerousStreets := street_danger scol str17.rows
            incidentPoints2023 := (incident_points latc lonc inc.rows).take 500 }

def runPipeline (srv : Table) (inc : NumTable) (str17 : Table) : Option Output :=
  match qColOf srv.cols with
  | none => none
  | some qcol =>
      assembleOutput (neighborhood_scores srv.cols qcol srv.rows) inc str17

/-! ### Claim theorems -/

/-- C3: for a group whose values contain no mappable value for a column,
the emitted rate/intensity is exactly 0.0, and the emitted value is always
a well-defined rational (either the 0.0 fallback or the rounded mean) —
no NaN ever reaches the output document. -/
theorem empty_mappable_rate_zero (m : String → Option ℚ)
    (vs : List (Option String)) :
    (mappedVals m vs = [] → rateVal m vs = 0) ∧
    (rateVal m vs = 0 ∨ rateVal m vs = pyRound 3 (meanQ (mappedVals m vs))) := by
  constructor
  · intro h
    simp [rateVal, h]
  · by_cases h : mappedVals m vs = []
    · left
      simp [rateVal, h]
    · right
      simp [rateVal, h]

theorem empty_mappable_rate_zero_witness :
    mappedVals yesMap [none, some "Boh"] = [] ∧
      rateVal yesMap [none, some "Boh"] = 0 :=
  ⟨by decide, (empty_mappable_rate_zero yesMap [none, some "Boh"]).1 (by decide)⟩

/-- C5: the yes/no map is exactly Sì↦1, Si↦1, No↦0 and the intensity map is
exactly Molto↦1, Moltissimo↦1, Abbastanza↦0.7, Poco↦0.3, Per nulla↦0; any
other value maps to nothing and missing cells drop out, and the result is
the mean of the mapped values only, rounded to 3 decimals. -/
theorem response_maps_exact :
    (yesMap "Sì" = some 1 ∧ yesMap "Si" = some 1 ∧ yesMap "No" = some 0) ∧
    (∀ s, s ≠ "Sì" → s ≠ "Si" → s ≠ "No" → yesMap s = none) ∧
    (intensityMap "Molto" = some 1 ∧ intensityMap "Moltissimo" = some 1 ∧
      intensityMap "Abbastanza" = some (7/10) ∧
      intensityMap "Poco" = some (3/10) ∧ intensityMap "Per nulla" = some 0) ∧
    (∀ s, s ≠ "Molto" → s ≠ "Moltissimo" → s ≠ "Abbastanza" → s ≠ "Poco" →
      s ≠ "Per nulla" → intensityMap s = none) ∧
    (∀ m vs, mappedVals m (none :: vs) = mappedVals m vs) ∧
    (∀ (m : String → Option ℚ) vs s, m s = none →
      mappedVals m (some s :: vs) = mappedVals m vs) ∧
    (∀ m vs, mappedVals m vs ≠ [] →
      rateVal m vs = pyRound 3 (meanQ (mappedVals m vs))) := by
  refine ⟨by with_unfolding_all decide, ?_, by with_unfolding_all decide,
    ?_, ?_, ?_, ?_⟩
  · intro s h1 h2 h3
    simp [yesMap, h1, h2, h3]
  · intro s h1 h2 h3 h4 h5
    simp [intensityMap, h1, h2, h3, h4, h5]
  · intro m vs
    simp [mappedVals]
  · intro m vs s h
    simp [mappedVals, h]
  · intro m vs h
    simp [rateVal, h]

theorem response_maps_exact_witness :
    rateVal yesMap [some "Sì", some "Sì", some "No"] =
      pyRound 3 (meanQ (mappedVals yesMap [some "Sì", some "Sì", some "No"])) :=
  response_maps_exact.2.2.2.2.2.2 yesMap [some "Sì", some "Sì", some "No"]
    (by decide)

/-- C4: the spatial filter retains exactly the records whose latitude lies in
[41.02, 41.17] and longitude in [16.72, 17.08], all four bounds inclusive;
(41.02, 16.72) passes the mask and (41.171, 17.08) fails it. -/
theorem bbox_filter_closed (rows : List (String → ℚ)) (latc lonc : String)
    (r : String → ℚ) :
    (r ∈ df_bari latc lonc rows ↔ r ∈ rows ∧
      ((41.02 : ℚ) ≤ r latc ∧ r latc ≤ (41.17 : ℚ) ∧
       (16.72 : ℚ) ≤ r lonc ∧ r lonc ≤ (17.08 : ℚ))) ∧
    maskOK (41.02 : ℚ) (16.72 : ℚ) = true ∧
    maskOK (41.171 : ℚ) (17.08 : ℚ) = false := by
  refine ⟨?_, by with_unfolding_all decide, by with_unfolding_all decide⟩
  simp [df_bari, List.mem_filter, maskOK, and_assoc]

/-- C2: for every retained incident the grid key is the rendered pair of the
floor-quantised coordinates `round(floor(lat/0.003)*0.003, 4)` and
`round(floor(lon/0.004)*0.004, 4)`; the assignment is a deterministic
function of (lat, lon); and a latitude exactly on a cell boundary
(41.10 with step 0.003) is assigned the cell starting at that boundary,
not the preceding cell (which starts at 41.097). -/
theorem grid_key_floor_quantized :
    (∀ lat lon : ℚ, grid_key lat lon =
      renderDec4 (pyRound 4 ((⌊lat / (0.003 : ℚ)⌋ : ℚ) * (0.003 : ℚ))) ++ "," ++
      renderDec4 (pyRound 4 ((⌊lon / (0.004 : ℚ)⌋ : ℚ) * (0.004 : ℚ)))) ∧
    (∀ lat lon lat' lon' : ℚ, lat = lat' → lon = lon' →
      grid_key lat lon = grid_key lat' lon') ∧
    glatOf (41.10 : ℚ) = (41.10 : ℚ) ∧
    glatOf (41.10 : ℚ) ≠ (41.097 : ℚ) ∧
    grid_key (41.10 : ℚ) (16.8 : ℚ) = "41.1,16.8" := by
  refine ⟨?_, ?_, by with_unfolding_all decide, by with_unfolding_all decide,
    by with_unfolding_all decide⟩
  · intro lat lon
    with_unfolding_all rfl
  · intro lat lon lat' lon' h1 h2
    rw [h1, h2]

theorem grid_key_floor_quantized_witness :
    grid_key (41.05 : ℚ) (16.8 : ℚ) = grid_key (41.05 : ℚ) (16.8 : ℚ) :=
  grid_key_floor_quantized.2.1 (41.05 : ℚ) (16.8 : ℚ) (41.05 : ℚ) (16.8 : ℚ)
    rfl rfl

/-- Predicate: `o` is an absent rate, or a present rate lying in [0, 1]. -/
def okOpt (o : Option ℚ) : Bool :=
  o.all (fun q => decide (0 ≤ q) && decide (q ≤ 1))

/-- All present rate fields of a score record lie in [0, 1]. -/
def ratesOK (ns : NScore) : Bool :=
  okOpt ns.spaccio_rate && okOpt ns.criminali_rate && okOpt ns.ragazzini_rate &&
  okOpt ns.illuminazione_rate && okOpt ns.degrado_marciapiedi_rate &&
  okOpt ns.barboni_rate

theorem okOpt_getD {o : Option ℚ} (h : okOpt o = true) :
    0 ≤ o.getD 0 ∧ o.getD 0 ≤ 1 := by
  cases o with
  | none => simp
  | some q =>
    simp only [okOpt, Option.all_some, Bool.and_eq_true, decide_eq_true_eq] at h
    simpa using h

theorem riskFromRates_bounds (sr cr rr ir dr br : Option ℚ)
    (h : (okOpt sr && okOpt cr && okOpt rr && okOpt ir && okOpt dr && okOpt br)
      = true) :
    0 ≤ riskFromRates sr cr rr ir dr br ∧ riskFromRates sr cr rr ir dr br ≤ 1 := by
  simp only [Bool.and_eq_true] at h
  obtain ⟨⟨⟨⟨⟨h1, h2⟩, h3⟩, h4⟩, h5⟩, h6⟩ := h
  obtain ⟨h1a, h1b⟩ := okOpt_getD h1
  obtain ⟨h2a, h2b⟩ := okOpt_getD h2
  obtain ⟨h3a, h3b⟩ := okOpt_getD h3
  obtain ⟨h4a, h4b⟩ := okOpt_getD h4
  obtain ⟨h5a, h5b⟩ := okOpt_getD h5
  obtain ⟨h6a, h6b⟩ := okOpt_getD h6
  unfold riskFromRates
  constructor
  · apply pyRound_nonneg
    nlinarith [h1a, h2a, h3a, h4a, h5a, h6a]
  · apply pyRound_le_one
    nlinarith [h1a, h2a, h3a, h4a, h5a, h6a, h1b, h2b, h3b, h4b, h5b, h6b]

/-- C1: for every neighborhood group the emitted `risk_score` is the weighted
sum of the six per-problem rate fields with weights 0.25, 0.25, 0.15, 0.15,
0.10, 0.10 (an absent rate contributing 0 via `.get(k, 0)`), rounded to 3
decimal places; and whenever all present rates lie in [0, 1] the
`risk_score` lies in [0, 1]. -/
theorem risk_score_weighted_sum (cols : List String)
    (g : List (String → Option String)) :
    (mkNScore cols g).risk_score =
      pyRound 3 ((mkNScore cols g).spaccio_rate.getD 0 * (0.25 : ℚ) +
        (mkNScore cols g).criminali_rate.getD 0 * (0.25 : ℚ) +
        (mkNScore cols g).ragazzini_rate.getD 0 * (0.15 : ℚ) +
        (mkNScore cols g).illuminazione_rate.getD 0 * (0.15 : ℚ) +
        (mkNScore cols g).degrado_marciapiedi_rate.getD 0 * (0.10 : ℚ) +
        (mkNScore cols g).barboni_rate.getD 0 * (0.10 : ℚ)) ∧
    (ratesOK (mkNScore cols g) = true →
      0 ≤ (mkNScore cols g).risk_score ∧ (mkNScore cols g).risk_score ≤ 1) := by
  have hrisk : (mkNScore cols g).risk_score =
      riskFromRates (mkNScore cols g).spaccio_rate (mkNScore cols g).criminali_rate
        (mkNScore cols g).ragazzini_rate (mkNScore cols g).illuminazione_rate
        (mkNScore cols g).degrado_marciapiedi_rate (mkNScore cols g).barboni_rate :=
    rfl
  constructor
  · rw [hrisk]
    unfold riskFromRates
    norm_num
  · intro h
    rw [hrisk]
    exact riskFromRates_bounds _ _ _ _ _ _ (by simpa [ratesOK, Bool.and_eq_true] using h)

theorem risk_score_weighted_sum_witness :
    ratesOK (mkNScore ["problemiquartiere_spaccio_scala_1"]
        [fun _ => some "Sì"]) = true ∧
    (0 ≤ (mkNScore ["problemiquartiere_spaccio_scala_1"]
        [fun _ => some "Sì"]).risk_score ∧
      (mkNScore ["problemiquartiere_spaccio_scala_1"]
        [fun _ => some "Sì"]).risk_score ≤ 1) :=
  ⟨by with_unfolding_all decide,
    (risk_score_weighted_sum ["problemiquartiere_spaccio_scala_1"]
      [fun _ => some "Sì"]).2 (by with_unfolding_all decide)⟩

/-- C6: the dangerousStreets mapping contains exactly the (non-null) street
names occurring at least twice, each with its exact occurrence count; on the
table ["Via A", "Via A", "Via B"] the result is exactly ("Via A", 2). -/
theorem street_danger_threshold (scol : String)
    (rows : List (String → Option String)) (name : String) (c : ℕ) :
    ((name, c) ∈ street_danger scol rows ↔
      (name ∈ street_names scol rows ∧
        c = (street_names scol rows).count name ∧ 2 ≤ c)) ∧
    street_danger "denominazione"
      [fun _ => some "Via A", fun _ => some "Via A", fun _ => some "Via B"] =
      [("Via A", 2)] := by
  constructor
  · simp only [street_danger, street_counts, List.mem_filter, List.mem_map,
      List.mem_dedup, decide_eq_true_eq, Prod.mk.injEq]
    constructor
    · rintro ⟨⟨a, ha, rfl, rfl⟩, h2⟩
      exact ⟨ha, rfl, h2⟩
    · rintro ⟨h1, rfl, h3⟩
      exact ⟨⟨name, h1, rfl, rfl⟩, h3⟩
  · with_unfolding_all decide

/-- C7: in every completed run, `incidentPoints2023` has length at most 500
and equals the first 500 (or fewer) bounding-box-retained points in original
file order, coordinates rounded to 5 decimal places, with relative order
preserved. -/
theorem incident_points_truncation (srv : Table) (inc : NumTable)
    (str17 : Table) (out : Output)
    (h : runPipeline srv inc str17 = some out) :
    out.incidentPoints2023.length ≤ 500 ∧
    ∀ latc lonc,
      (inc.cols.filter (matchTok "latit")).head? = some latc →
      (inc.cols.filter (matchTok "longit")).head? = some lonc →
      out.incidentPoints2023 = (incident_points latc lonc inc.rows).take 500 ∧
      ∀ i, ∀ h1 : i < out.incidentPoints2023.length,
        ∀ h2 : i < (incident_points latc lonc inc.rows).length,
        out.incidentPoints2023[i] = (incident_points latc lonc inc.rows)[i] := by
  unfold runPipeline assembleOutput at h
  split at h
  · exact absurd h (by simp)
  split at h
  · exact absurd h (by simp)
  next latc0 hlat0 =>
    split at h
    · exact absurd h (by simp)
    next lonc0 hlon0 =>
      split at h
      · exact absurd h (by simp)
      split at h
      · exact absurd h (by simp)
      obtain rfl : _ = out := Option.some.inj h
      constructor
      · simp [List.length_take]
      · intro latc lonc hlat hlon
        obtain rfl : latc0 = latc := by
          rw [hlat0] at hlat
          exact Option.some.inj hlat
        obtain rfl : lonc0 = lonc := by
          rw [hlon0] at hlon
          exact Option.some.inj hlon
        refine ⟨rfl, ?_⟩
        intro i h1 h2
        simp [List.getElem_take]

set_option maxRecDepth 10000 in
theorem incident_points_truncation_witness :
    (Option.getD (runPipeline ⟨["quartiere_abita"], []⟩
        ⟨["latitudine", "longitudine"],
          [fun c => if c = "latitudine" then (41.05 : ℚ) else (16.8 : ℚ)]⟩
        ⟨["denominazione"], [fun _ => some "Via A"]⟩)
      default).incidentPoints2023.length ≤ 500 :=
  (incident_points_truncation ⟨["quartiere_abita"], []⟩
    ⟨["latitudine", "longitudine"],
      [fun c => if c = "latitudine" then (41.05 : ℚ) else (16.8 : ℚ)]⟩
    ⟨["denominazione"], [fun _ => some "Via A"]⟩
    _ (by with_unfolding_all decide)).1

/-- C8: when the fuzzy vocabulary match for a strictly required column
(latitude, longitude, or street name) finds zero columns, the run aborts
(taking `[0]` of the empty match list raises) before the output file is
written: the model returns `none`, i.e. nothing is written. -/
theorem missing_required_column_aborts (srv : Table) (inc : NumTable)
    (str17 : Table)
    (h : inc.cols.filter (matchTok "latit") = [] ∨
         inc.cols.filter (matchTok "longit") = [] ∨
         str17.cols.filter (matchTok "denominaz") = []) :
    runPipeline srv inc str17 = none := by
  unfold runPipeline assembleOutput
  split
  · rfl
  split
  · rfl
  next latc hlat =>
    split
    · rfl
    next lonc hlon =>
      split
      · rfl
      split
      · rfl
      next scol hscol =>
        rcases h with h | h | h
        · rw [h] at hlat
          simp at hlat
        · rw [h] at hlon
          simp at hlon
        · rw [h] at hscol
          simp at hscol

theorem missing_required_column_aborts_witness :
    runPipeline ⟨[], []⟩ ⟨["x"], []⟩ ⟨[], []⟩ = none :=
  missing_required_column_aborts ⟨[], []⟩ ⟨["x"], []⟩ ⟨[], []⟩
    (Or.inl (by with_unfolding_all decide))

theorem length_filter_eq_count (qcol k : String)
    (rows : List (String → Option String)) :
    (rows.filter (fun r => decide (r qcol = some k))).length =
      (rows.filterMap (fun r => r qcol)).count k := by
  induction rows with
  | nil => rfl
  | cons r t ih =>
    cases h : r qcol with
    | none =>
      simp [List.filter_cons, List.filterMap_cons, h, ih]
    | some v =>
      by_cases hv : v = k
      · subst hv
        simp [List.filter_cons, List.filterMap_cons, h, ih, List.count_cons]
      · simp [List.filter_cons, List.filterMap_cons, h, ih, List.count_cons,
          hv, Ne.symm hv]

theorem sum_map_count_cons {α : Type} [DecidableEq α] (a : α) (t ks : List α) :
    (ks.map (fun k => (a :: t).count k)).sum =
      (ks.map (fun k => t.count k)).sum + ks.count a := by
  induction ks with
  | nil => simp
  | cons k ks ih =>
    rw [List.map_cons, List.map_cons, List.sum_cons, List.sum_cons, ih]
    simp only [List.count_cons]
    by_cases h : k = a
    · subst h
      simp
      omega
    · have h1 : (k == a) = false := beq_eq_false_iff_ne.mpr h
      have h2 : (a == k) = false := beq_eq_false_iff_ne.mpr (Ne.symm h)
      rw [h1, h2]
      simp
      omega

theorem sum_count_dedup {α : Type} [DecidableEq α] (l : List α) :
    (l.dedup.map (fun k => l.count k)).sum = l.length := by
  induction l with
  | nil => simp
  | cons a t ih =>
    by_cases h : a ∈ t
    · rw [List.dedup_cons_of_mem h, sum_map_count_cons, ih]
      have hone : t.dedup.count a = 1 := by
        rw [List.count_dedup]
        simp [h]
      rw [hone]
      simp
    · rw [List.dedup_cons_of_not_mem h]
      simp only [List.map_cons, List.sum_cons]
      rw [sum_map_count_cons, ih]
      have h0 : t.count a = 0 := List.count_eq_zero.2 h
      have h0d : t.dedup.count a = 0 := by
        rw [List.count_dedup]
        simp [h]
      rw [h0d]
      simp [List.count_cons, h0]
      omega

/-- C9: a survey row whose neighborhood cell is missing belongs to no group,
so the sum of the `count` fields over all neighborhoodScores equals the
number of rows with a non-missing neighborhood label, which is at most the
total number of rows. -/
theorem group_counts_partition (cols : List String) (qcol : String)
    (rows : List (String → Option String)) :
    ((neighborhood_scores cols qcol rows).map (fun kv => kv.2.count)).sum =
        (rows.filterMap (fun r => r qcol)).length ∧
    (rows.filterMap (fun r => r qcol)).length ≤ rows.length ∧
    ∀ r : String → Option String, r qcol = none → ∀ k,
      r ∉ groupRows qcol rows k := by
  refine ⟨?_, List.length_filterMap_le _ _, ?_⟩
  · unfold neighborhood_scores
    rw [List.map_map]
    have hcong : ((rows.filterMap (fun r => r qcol)).dedup.map
        ((fun kv : String × NScore => kv.2.count) ∘
          (fun k => (k, mkNScore cols (groupRows qcol rows k))))) =
        ((rows.filterMap (fun r => r qcol)).dedup.map
          (fun k => (rows.filterMap (fun r => r qcol)).count k)) := by
      apply List.map_congr_left
      intro k _
      show (mkNScore cols (groupRows qcol rows k)).count = _
      have : (mkNScore cols (groupRows qcol rows k)).count =
          (groupRows qcol rows k).length := rfl
      rw [this]
      exact length_filter_eq_count qcol k rows
    rw [hcong, sum_count_dedup]
  · intro r hr k hmem
    have := (List.mem_filter.1 hmem).2
    simp only [decide_eq_true_eq] at this
    rw [hr] at this
    exact Option.noConfusion this

theorem group_counts_partition_witness :
    (fun _ => (none : Option String)) "q" = none ∧
    (fun _ => (none : Option String)) ∉
      groupRows "q" [fun _ => (none : Option String)] "A" :=
  ⟨rfl, (group_counts_partition [] "q" [fun _ => none]).2.2
    (fun _ => none) rfl "A"⟩

/-! ### Noninterference of the unsafe-places columns (C10) -/

/-- The six problem keywords of `key_problems` / `key_intensity`. -/
def probToks : List String :=
  ["spaccio", "criminal", "ragazzini", "illuminaz", "marciapiedi", "barboni"]

/-- The survey columns whose cells the pipeline can ever read: the resolved
neighborhood column and, per problem, the first matched yes/no and intensity
columns. -/
def usedCols (cols : List String) : List String :=
  (match qColOf cols with
   | some q => [q]
   | none => []) ++
  (probToks.filterMap (fun t => (keyCols cols t).head?) ++
   probToks.filterMap (fun t => (keyIntCols cols t).head?))

theorem forall2_map_congr {α β γ : Type} {R : α → β → Prop} {f : α → γ}
    {g : β → γ} (hf : ∀ a b, R a b → f a = g b) :
    ∀ {l : List α} {l' : List β}, List.Forall₂ R l l' → l.map f = l'.map g := by
  intro l l' h
  induction h with
  | nil => rfl
  | cons hab _ ih => rw [List.map_cons, List.map_cons, hf _ _ hab, ih]

theorem forall2_filterMap_congr {α β γ : Type} {R : α → β → Prop}
    {f : α → Option γ} {g : β → Option γ} (hf : ∀ a b, R a b → f a = g b) :
    ∀ {l : List α} {l' : List β}, List.Forall₂ R l l' →
      l.filterMap f = l'.filterMap g := by
  intro l l' h
  induction h with
  | nil => rfl
  | cons hab _ ih =>
    rw [List.filterMap_cons, List.filterMap_cons, hf _ _ hab, ih]

theorem forall2_filter_congr {α β : Type} {R : α → β → Prop} {p : α → Bool}
    {q : β → Bool} (hpq : ∀ a b, R a b → p a = q b) :
    ∀ {l : List α} {l' : List β}, List.Forall₂ R l l' →
      List.Forall₂ R (l.filter p) (l'.filter q) := by
  intro l l' h
  induction h with
  | nil => exact List.Forall₂.nil
  | cons hab htl ih =>
    rename_i a b l1 l2
    rw [List.filter_cons, List.filter_cons, ← hpq _ _ hab]
    by_cases hp : p a = true
    · rw [if_pos hp, if_pos hp]
      exact List.Forall₂.cons hab ih
    · rw [if_neg hp, if_neg hp]
      exact ih

theorem rateField_congr (m : String → Option ℚ) (colsFor : List String)
    (U : List String) (hmem : ∀ col, colsFor.head? = some col → col ∈ U)
    {g g' : List (String → Option String)}
    (h : List.Forall₂ (fun r r' => ∀ c ∈ U, r c = r' c) g g') :
    rateField m colsFor g = rateField m colsFor g' := by
  cases hc : colsFor.head? with
  | none => simp [rateField, hc]
  | some col =>
    have hcol := hmem col hc
    have hmap : g.map (fun r => r col) = g'.map (fun r => r col) :=
      forall2_map_congr (fun a b hab => hab col hcol) h
    simp [rateField, hc, hmap]

theorem keyCols_head_mem (cols : List String) (t col : String)
    (ht : t ∈ probToks) (h : (keyCols cols t).head? = some col) :
    col ∈ usedCols cols := by
  unfold usedCols
  exact List.mem_append_right _
    (List.mem_append_left _ (List.mem_filterMap.2 ⟨t, ht, h⟩))

theorem keyIntCols_head_mem (cols : List String) (t col : String)
    (ht : t ∈ probToks) (h : (keyIntCols cols t).head? = some col) :
    col ∈ usedCols cols := by
  unfold usedCols
  exact List.mem_append_right _
    (List.mem_append_right _ (List.mem_filterMap.2 ⟨t, ht, h⟩))

theorem mkNScore_congr (cols : List String)
    {g g' : List (String → Option String)}
    (h : List.Forall₂ (fun r r' => ∀ c ∈ usedCols cols, r c = r' c) g g') :
    mkNScore cols g = mkNScore cols g' := by
  have hy : ∀ t, t ∈ probToks →
      rateField yesMap (keyCols cols t) g = rateField yesMap (keyCols cols t) g' :=
    fun t ht => rateField_congr _ _ _
      (fun col hcol => keyCols_head_mem cols t col ht hcol) h
  have hi : ∀ t, t ∈ probToks →
      rateField intensityMap (keyIntCols cols t) g =
        rateField intensityMap (keyIntCols cols t) g' :=
    fun t ht => rateField_congr _ _ _
      (fun col hcol => keyIntCols_head_mem cols t col ht hcol) h
  unfold mkNScore
  rw [hy "spaccio" (by simp [probToks]), hy "criminal" (by simp [probToks]),
    hy "ragazzini" (by simp [probToks]), hy "illuminaz" (by simp [probToks]),
    hy "marciapiedi" (by simp [probToks]), hy "barboni" (by simp [probToks]),
    hi "spaccio" (by simp [probToks]), hi "criminal" (by simp [probToks]),
    hi "ragazzini" (by simp [probToks]), hi "illuminaz" (by simp [probToks]),
    hi "marciapiedi" (by simp [probToks]), hi "barboni" (by simp [probToks]),
    h.length_eq]

theorem neighborhood_scores_congr (cols : List String) (qcol : String)
    (hq : qcol ∈ usedCols cols)
    {rows rows' : List (String → Option String)}
    (h : List.Forall₂ (fun r r' => ∀ c ∈ usedCols cols, r c = r' c) rows rows') :
    neighborhood_scores cols qcol rows = neighborhood_scores cols qcol rows' := by
  unfold neighborhood_scores
  have hkeys : rows.filterMap (fun r => r qcol) =
      rows'.filterMap (fun r => r qcol) :=
    forall2_filterMap_congr (fun a b hab => hab qcol hq) h
  rw [hkeys]
  apply List.map_congr_left
  intro k _
  have hg : List.Forall₂ (fun r r' => ∀ c ∈ usedCols cols, r c = r' c)
      (groupRows qcol rows k) (groupRows qcol rows' k) :=
    forall2_filter_congr (fun a b hab => by rw [hab qcol hq]) h
  rw [show groupRows qcol rows k = rows.filter
        (fun r => decide (r qcol = some k)) from rfl] at hg ⊢
  rw [mkNScore_congr cols hg]

/-- C10 (amended): two runs on survey tables that differ only in the values
of the luoghiinsicurezza columns produce identical written JSON, provided
none of those columns is also resolved as the neighborhood column or as a
per-problem yes/no or intensity column (the code allows a single column name
to match both vocabularies, and then its values do reach the output). -/
theorem unsafe_places_noninterference (srv srv' : Table) (inc : NumTable)
    (str17 : Table) (hcols : srv.cols = srv'.cols)
    (hrows : List.Forall₂
      (fun r r' => ∀ c, matchTok "luoghiinsicurezza" c = false → r c = r' c)
      srv.rows srv'.rows)
    (hdisj : ∀ c ∈ usedCols srv.cols, matchTok "luoghiinsicurezza" c = false) :
    runPipeline srv inc str17 = runPipeline srv' inc str17 := by
  have hR : List.Forall₂ (fun r r' => ∀ c ∈ usedCols srv.cols, r c = r' c)
      srv.rows srv'.rows :=
    hrows.imp (fun a b hab c hc => hab c (hdisj c hc))
  unfold runPipeline
  rw [← hcols]
  cases hq : qColOf srv.cols with
  | none => rfl
  | some qcol =>
    have hqmem : qcol ∈ usedCols srv.cols := by
      unfold usedCols
      rw [hq]
      exact List.mem_append_left _ (by simp)
    dsimp only
    rw [neighborhood_scores_congr srv.cols qcol hqmem hR]

theorem unsafe_places_noninterference_witness :
    runPipeline
      ⟨["quartiere_abita", "luoghiinsicurezza_piazza"],
       [fun c => if c = "luoghiinsicurezza_piazza" then some "Selezionato"
          else if c = "quartiere_abita" then some "A" else none]⟩
      ⟨["latitudine", "longitudine"],
       [fun c => if c = "latitudine" then (41.05 : ℚ) else (16.8 : ℚ)]⟩
      ⟨["denominazione"], [fun _ => some "Via A"]⟩ =
    runPipeline
      ⟨["quartiere_abita", "luoghiinsicurezza_piazza"],
       [fun c => if c = "luoghiinsicurezza_piazza" then none
          else if c = "quartiere_abita" then some "A" else none]⟩
      ⟨["latitudine", "longitudine"],
       [fun c => if c = "latitudine" then (41.05 : ℚ) else (16.8 : ℚ)]⟩
      ⟨["denominazione"], [fun _ => some "Via A"]⟩ :=
  unsafe_places_noninterference _ _ _ _ rfl
    (List.Forall₂.cons
      (fun c hc => by
        by_cases h : c = "luoghiinsicurezza_piazza"
        · exfalso
          rw [h] at hc
          have htrue : matchTok "luoghiinsicurezza" "luoghiinsicurezza_piazza"
              = true := by
            with_unfolding_all decide
          rw [htrue] at hc
          exact Bool.noConfusion hc
        · rw [if_neg h, if_neg h])
      List.Forall₂.nil)
    (by with_unfolding_all decide)

/-- C10 as literally stated is false: a column whose name matches both the
unsafe-places vocabulary and the problem vocabulary feeds the risk scores,
so two survey tables differing only in the values of the
luoghiinsicurezza columns can produce different written JSON. -/
theorem unsafe_places_leak_counterexample :
    (∀ c, matchTok "luoghiinsicurezza" c = false →
      (if c = "problemiquartiere_spaccio_scala_1_luoghiinsicurezza"
        then (some "Sì" : Option String)
        else if c = "quartiere_abita" then some "A" else none) =
      (if c = "problemiquartiere_spaccio_scala_1_luoghiinsicurezza"
        then (some "No" : Option String)
        else if c = "quartiere_abita" then some "A" else none)) ∧
    runPipeline
      ⟨["quartiere_abita", "problemiquartiere_spaccio_scala_1_luoghiinsicurezza"],
       [fun c => if c = "problemiquartiere_spaccio_scala_1_luoghiinsicurezza"
          then some "Sì"
          else if c = "quartiere_abita" then some "A" else none]⟩
      ⟨["latitudine", "longitudine"],
       [fun c => if c = "latitudine" then (41.05 : ℚ) else (16.8 : ℚ)]⟩
      ⟨["denominazione"], [fun _ => some "Via A"]⟩ ≠
    runPipeline
      ⟨["quartiere_abita", "problemiquartiere_spaccio_scala_1_luoghiinsicurezza"],
       [fun c => if c = "problemiquartiere_spaccio_scala_1_luoghiinsicurezza"
          then some "No"
          else if c = "quartiere_abita" then some "A" else none]⟩
      ⟨["latitudine", "longitudine"],
       [fun c => if c = "latitudine" then (41.05 : ℚ) else (16.8 : ℚ)]⟩
      ⟨["denominazione"], [fun _ => some "Via A"]⟩ := by
  constructor
  · intro c hc
    by_cases h : c = "problemiquartiere_spaccio_scala_1_luoghiinsicurezza"
    · exfalso
      rw [h] at hc
      have htrue : matchTok "luoghiinsicurezza"
          "problemiquartiere_spaccio_scala_1_luoghiinsicurezza" = true := by
        with_unfolding_all decide
      rw [htrue] at hc
      exact Bool.noConfusion hc
    · rw [if_neg h, if_neg h]
  · with_unfolding_all decide

end SafetyData
